import Mathlib

/-!
Verification of the RunZen fitness-tracking backend (src/backend).

This file gives a shallow embedding of the backend's data model and of the
functions the specification talks about, and proves or refutes the spec's
claims about them.

Modelling conventions:
  * Timestamps are modelled at day granularity as natural numbers counting
    days from Sunday 2025-12-28 (a Sunday, so that `d % 7 = 0` exactly on
    Sundays).  The analysis epoch 2026-01-01 is day 4.  All the date logic
    the claims touch (Sunday-start week bucketing, the 2026 epoch filter)
    only needs day granularity: `get_week_boundaries_for_date` zeroes the
    time-of-day components.
  * Python floats are modelled as rationals (ℚ); the claims under study are
    about exact arithmetic thresholds, not float rounding.
  * Database tables are modelled as lists of rows; SQLAlchemy's
    `query(...).filter(...)` is `List.filter`, `.first()` is `List.find?`,
    `db.delete` of the first match is `List.eraseP`, and autoincrement ids
    are an explicit `next id` counter.
  * HTTP 4xx rejections (`raise HTTPException`) are `Except.error` values of
    per-endpoint error types; the human-readable detail strings are carried
    as constructor names.
-/

namespace RunZen

/-- A row of the `runs` table (models.py `Run`, plus the `user_id` and
`category` columns added by `run_migrations` in main.py and used throughout
crud.py and main.py).  `completedDay` is the day-granularity timestamp. -/
structure Run where
  id : Nat
  runType : String
  durationSeconds : Nat
  distanceKm : ℚ
  completedDay : Nat
  userId : Option Nat
  category : String
deriving DecidableEq

/-- The analysis epoch `datetime(2026, 1, 1)` (`min_date` throughout the
backend), as a day index: day 0 is Sunday 2025-12-28, so 2026-01-01 is day 4. -/
def minDay : Nat := 4

/-- schemas.py `RUN_DISTANCES`: the static lookup table from run-type label
to distance in kilometers.  (Note: it has no entry for the label 20k.) -/
def RUN_DISTANCES : List (String × ℚ) :=
  [("3k", 3), ("5k", 5), ("10k", 10), ("15k", 15), ("18k", 18), ("21k", 21)]

/-- Sum of `distance_km` over a list of runs (the `sum(r.distance_km for r in
runs)` idiom used everywhere in crud.py and achievements.py). -/
def sumKm (runs : List Run) : ℚ :=
  (runs.map (fun r => r.distanceKm)).sum

/-- crud.py `is_valid_streak_week`: a week's run list qualifies for the
streak iff it has at least 3 runs, at least 1 run of 10 km or more, and at
least 2 runs under 10 km. -/
def is_valid_streak_week (runs : List Run) : Bool :=
  if runs.length < 3 then
    false
  else
    let long_runs := runs.filter (fun r => decide (10 ≤ r.distanceKm))
    let short_runs := runs.filter (fun r => decide (r.distanceKm < 10))
    decide (1 ≤ long_runs.length) && decide (2 ≤ short_runs.length)

/-- crud.py `get_week_boundaries_for_date`, reduced to day granularity: the
Sunday on or before the given day.  With day 0 a Sunday this is `d - d % 7`. -/
def weekStart (d : Nat) : Nat := d - d % 7

/-- Insert into a descending-sorted list of week keys. -/
def insertDesc (x : Nat) : List Nat → List Nat
  | [] => [x]
  | y :: ys => if y ≤ x then x :: y :: ys else y :: insertDesc x ys

/-- Sort week keys in descending order (crud.py sorts `weeks_data` by week
start with `reverse=True`; the keys are distinct, so any sort agrees). -/
def sortDesc : List Nat → List Nat
  | [] => []
  | x :: xs => insertDesc x (sortDesc xs)

/-- The backward walk of crud.py `calculate_streaks` computing the current
streak: iterate the distinct week starts in descending order, tracking the
expected week start and the streak counted so far, mirroring the
`days_diff` branches of the Python loop (`break` is returning the
accumulated streak). -/
def currentStreakLoop (validAt : Nat → Bool) (cws : Nat) :
    List Nat → Int → Nat → Nat
  | [], _, streak => streak
  | w :: rest, expected, streak =>
    let diff : Int := expected - (w : Int)
    if diff = 0 ∨ (diff = 7 ∧ streak = 0) then
      if validAt w then
        currentStreakLoop validAt cws rest ((w : Int) - 7) (streak + 1)
      else if w = cws then
        currentStreakLoop validAt cws rest ((cws : Int) - 7) streak
      else streak
    else if diff = 7 then
      if validAt w then
        currentStreakLoop validAt cws rest ((w : Int) - 7) (streak + 1)
      else streak
    else streak

/-- The oldest-to-newest scan of crud.py `calculate_streaks` computing the
longest streak: `prev` is the last counted valid week start, `temp` the
running streak, `longest` the maximum seen. -/
def longestStreakLoop (validAt : Nat → Bool) :
    List Nat → Option Nat → Nat → Nat → Nat
  | [], _, _, longest => longest
  | w :: rest, prev, temp, longest =>
    if validAt w then
      let t := match prev with
        | none => 1
        | some p => if (w : Int) - (p : Int) = 7 then temp + 1 else 1
      longestStreakLoop validAt rest (some w) t (max longest t)
    else
      longestStreakLoop validAt rest none 0 longest

/-- crud.py `calculate_streaks`: filter the user's runs to the 2026 epoch,
bucket them by Sunday week start, and run the two scans.  `now` is the
current day. -/
def calculate_streaks (now : Nat) (runs : List Run) : Nat × Nat :=
  let allRuns := runs.filter (fun r => decide (minDay ≤ r.completedDay))
  if allRuns.isEmpty then (0, 0)
  else
    let weekKeys := sortDesc ((allRuns.map (fun r => weekStart r.completedDay)).dedup)
    let weekRuns := fun w => allRuns.filter (fun r => decide (weekStart r.completedDay = w))
    let validAt := fun w => is_valid_streak_week (weekRuns w)
    let cws := weekStart now
    let current := currentStreakLoop validAt cws weekKeys (cws : Int) 0
    let longest := longestStreakLoop validAt weekKeys.reverse none 0 0
    (current, longest)

/-- Python's `min(...)` over the `duration_seconds` of a non-empty run list
(0 for the empty list, which the callers never hit). -/
def minDuration (runs : List Run) : Nat :=
  match runs.map (fun r => r.durationSeconds) with
  | [] => 0
  | d :: ds => ds.foldl min d

/-- The `pr_type` tag string built in main.py `check_personal_best`
(an f-string prefixing the run type). -/
def prTag (t : String) : String :=
  "fastest_" ++ t

/-- The `previous_runs` query of main.py `check_personal_best`: same-type
in-scope runs other than the new run itself, restricted to the new run's
user only when the new run has one. -/
def prior_same_type (db : List Run) (newRun : Run) : List Run :=
  db.filter (fun r =>
    decide (r.runType = newRun.runType) && decide (r.id ≠ newRun.id) &&
    decide (minDay ≤ r.completedDay) &&
    (match newRun.userId with
     | none => true
     | some u => decide (r.userId = some u)))

/-- main.py `check_personal_best`: the PR flag (and `pr_type` tag) attached
to a freshly created run.  A PR iff there is no previous same-type run (for
the same user, when the run has one) or the new duration is strictly below
the previous minimum. -/
def check_personal_best (db : List Run) (newRun : Run) : Bool × Option String :=
  match prior_same_type db newRun with
  | [] => (true, some (prTag newRun.runType))
  | r :: rs =>
    if newRun.durationSeconds < minDuration (r :: rs) then
      (true, some (prTag newRun.runType))
    else
      (false, none)

/-- The `previous_runs` query of achievements.py `check_new_pr`: same-type
in-scope runs other than the run itself — with NO user filter. -/
def prior_same_type_all (db : List Run) (run : Run) : List Run :=
  db.filter (fun r =>
    decide (r.runType = run.runType) && decide (minDay ≤ r.completedDay) &&
    decide (r.id ≠ run.id))

/-- The dict returned by achievements.py `check_new_pr` when it is not
`None`: either the first run of the type, or a new PR with its improvement
in seconds. -/
inductive PRInfo
  | firstRun
  | newPR (improvementSeconds : Nat)
deriving DecidableEq

/-- achievements.py `check_new_pr`: `None` when the run is neither the first
of its type nor faster than the previous minimum; otherwise the first-run or
new-PR dict (with `improvement_seconds = fastest_previous - duration`). -/
def check_new_pr (db : List Run) (run : Run) : Option PRInfo :=
  match prior_same_type_all db run with
  | [] => some PRInfo.firstRun
  | r :: rs =>
    let fastest := minDuration (r :: rs)
    if run.durationSeconds < fastest then
      some (PRInfo.newPR (fastest - run.durationSeconds))
    else
      none

/-- The claim's reading of the prior runs relevant to a new run: the
in-scope same-type runs of that user, other than the new run itself. -/
def spec_prior_for_user (db : List Run) (newRun : Run) (u : Nat) : List Run :=
  db.filter (fun r =>
    decide (r.runType = newRun.runType) && decide (r.id ≠ newRun.id) &&
    decide (minDay ≤ r.completedDay) && decide (r.userId = some u))

/-- The single `UserStats` row (models.py `UserStats`): the denormalized
aggregate counters.  (`updated_at` is database-managed and not modelled.) -/
structure StatsRow where
  totalRuns : Nat
  totalKm : ℚ
  currentStreak : Nat
  longestStreak : Nat
deriving DecidableEq

/-- schemas.py `RunCreate`: the request body for creating a run.
`completedAt` is the optional backdating timestamp (day granularity). -/
structure RunCreate where
  runType : String
  durationSeconds : Nat
  notes : Option String
  completedAt : Option Nat
  category : Option String
deriving DecidableEq

/-- schemas.py `RunUpdate`: the request body for updating a run; only the
provided fields are applied. -/
structure RunUpdate where
  runType : Option String
  durationSeconds : Option Nat
  notes : Option String
  category : Option String
deriving DecidableEq

/-- The application state the run endpoints touch: the `runs` table, the
single optional `UserStats` row, and the autoincrement counter for run ids. -/
structure AppState where
  runs : List Run
  stats : Option StatsRow
  nextRunId : Nat
deriving DecidableEq

/-- The empty database. -/
def initialState : AppState :=
  { runs := [], stats := none, nextRunId := 0 }

/-- crud.py `get_or_create_stats`: the stats row, defaulting to all-zero
counters when the table is empty. -/
def get_or_create_stats (stats : Option StatsRow) : StatsRow :=
  stats.getD { totalRuns := 0, totalKm := 0, currentStreak := 0, longestStreak := 0 }

/-- crud.py `update_stats_after_run`: bump `total_runs` by 1 and `total_km`
by the given distance on the (created-if-missing) stats row. -/
def update_stats_after_run (stats : Option StatsRow) (distanceKm : ℚ) : StatsRow :=
  let st := get_or_create_stats stats
  { st with totalRuns := st.totalRuns + 1, totalKm := st.totalKm + distanceKm }

/-- The default run category (`run.category or "outdoor"` in crud.py; the
`or` also replaces an empty string). -/
def defaultCategory : String :=
  "outdoor"

/-- Python truthiness of `run.category or "outdoor"`. -/
def categoryOrDefault (c : Option String) : String :=
  match c with
  | none => defaultCategory
  | some s => if s = "" then defaultCategory else s

/-- crud.py `create_run`: build the row with the looked-up distance
(`RUN_DISTANCES.get(run.run_type, 0.0)`), default the completion time to
now, persist it, and update the stats counters. -/
def crud_create_run (rc : RunCreate) (userId : Option Nat) (now : Nat)
    (s : AppState) : AppState × Run :=
  let distance := (RUN_DISTANCES.lookup rc.runType).getD 0
  let run : Run :=
    { id := s.nextRunId
      runType := rc.runType
      durationSeconds := rc.durationSeconds
      distanceKm := distance
      completedDay := rc.completedAt.getD now
      userId := userId
      category := categoryOrDefault rc.category }
  ({ runs := s.runs ++ [run]
     stats := some (update_stats_after_run s.stats distance)
     nextRunId := s.nextRunId + 1 }, run)

/-- crud.py `delete_run`: delete the first run with the given id, returning
whether one was found.  The stats row is not touched. -/
def crud_delete_run (s : AppState) (runId : Nat) : Bool × AppState :=
  match s.runs.find? (fun r => decide (r.id = runId)) with
  | some _ =>
    (true, { s with runs := s.runs.eraseP (fun r => decide (r.id = runId)) })
  | none => (false, s)

/-- Replace the first element satisfying `p` by its image under `f`
(SQLAlchemy mutates the entity returned by `.first()` in place). -/
def updateFirst (p : α → Bool) (f : α → α) : List α → List α
  | [] => []
  | x :: xs => if p x then f x :: xs else x :: updateFirst p f xs

/-- crud.py `update_run` applied to one row: only the provided fields are
updated, and a run-type change re-derives `distance_km` from the table
(keeping the old distance for an unknown label). -/
def applyRunUpdate (ru : RunUpdate) (r : Run) : Run :=
  let r1 := match ru.runType with
    | none => r
    | some t => { r with runType := t,
                         distanceKm := (RUN_DISTANCES.lookup t).getD r.distanceKm }
  let r2 := match ru.durationSeconds with
    | none => r1
    | some d => { r1 with durationSeconds := d }
  match ru.category with
  | none => r2
  | some c => { r2 with category := c }

/-- crud.py `update_run`: update the first run with the given id, if any.
The stats row is not touched. -/
def crud_update_run (s : AppState) (runId : Nat) (ru : RunUpdate) :
    AppState × Option Run :=
  match s.runs.find? (fun r => decide (r.id = runId)) with
  | none => (s, none)
  | some r =>
    let r2 := applyRunUpdate ru r
    ({ s with runs := updateFirst (fun x => decide (x.id = runId)) (fun _ => r2) s.runs },
     some r2)

/-- The 400 rejection of main.py `create_run` for a label outside
`RUN_DISTANCES`. -/
inductive RunApiError
  | invalidRunType
deriving DecidableEq

/-- main.py `create_run` (POST /runs): reject unknown run types with a 400
validation error before any persistence; otherwise persist via
crud.create_run and compute the PR flag on the stored run. -/
def create_run_endpoint (rc : RunCreate) (userId : Option Nat) (now : Nat)
    (s : AppState) : AppState × Except RunApiError (Run × Bool) :=
  if (RUN_DISTANCES.lookup rc.runType).isSome then
    let res := crud_create_run rc userId now s
    let pr := (check_personal_best res.1.runs res.2).1
    (res.1, Except.ok (res.2, pr))
  else
    (s, Except.error RunApiError.invalidRunType)

/-- achievements.py `YEARLY_GOAL_KM`: the global yearly distance goal. -/
def YEARLY_GOAL_KM : ℚ := 1000

/-- achievements.py `MONTHLY_GOAL_KM`: the global monthly distance goal. -/
def MONTHLY_GOAL_KM : ℚ := 100

/-- The yearly block of achievements.py `get_goals_progress`: sum the
in-scope distance (`year_start` and `min_date` are both 2026-01-01), clamp
the percentage at 100 guarding a non-positive target, and compare against
the linear day-of-year pacing for `on_track`. -/
def yearly_goal_progress (runs : List Run) (target : ℚ) (dayOfYear : Nat) :
    ℚ × Bool :=
  let year_runs := runs.filter (fun r => decide (minDay ≤ r.completedDay))
  let yearly_km := sumKm year_runs
  let yearly_percent := if 0 < target then min 100 (yearly_km / target * 100) else 0
  let on_track := decide (target * ((dayOfYear : ℚ) / 365) ≤ yearly_km)
  (yearly_percent, on_track)

/-- A row of the `user_goals` table (models.py `UserGoals`), restricted to
the fields the claims touch. -/
structure UserGoalsRow where
  userId : Nat
  yearlyKmGoal : ℚ
  monthlyKmGoal : ℚ
deriving DecidableEq

/-- The goal block of crud.py `get_month_in_review` (its `monthly_km_goal`,
`goal_percent` and `goal_met` outputs): the user's goals row is looked up
with a Python-truthiness guard (`if user_id:`), the monthly goal defaults
to the literal 80.0 when no row is found, the percentage is clamped at 100
guarding a non-positive goal, and `goal_met` compares the month's total
distance against the goal. -/
def get_month_in_review_goals (monthRuns : List Run)
    (goalsRows : List UserGoalsRow) (userId : Option Nat) : ℚ × ℚ × Bool :=
  let total_km := sumKm monthRuns
  let rows := match userId with
    | none => goalsRows
    | some u => if u = 0 then goalsRows else goalsRows.filter (fun g => decide (g.userId = u))
  let monthly_km_goal : ℚ := match rows.head? with
    | some g => g.monthlyKmGoal
    | none => 80
  let goal_percent := if 0 < monthly_km_goal then min (total_km / monthly_km_goal * 100) 100 else 0
  let goal_met := decide (monthly_km_goal ≤ total_km)
  (monthly_km_goal, goal_percent, goal_met)

/-- A row of the `circles` table (constructed and queried in main.py; the
model class lives outside src). -/
structure CircleRow where
  id : Nat
  name : String
  inviteCode : String
  createdBy : Nat
deriving DecidableEq

/-- A row of the `circle_memberships` table (constructed and queried in
main.py; the join timestamp is irrelevant to the claims). -/
structure MembershipRow where
  circleId : Nat
  userId : Nat
deriving DecidableEq

/-- The state the circle endpoints touch: both tables plus the autoincrement
counter for circle ids. -/
structure SocialState where
  circles : List CircleRow
  memberships : List MembershipRow
  nextCircleId : Nat
deriving DecidableEq

/-- The membership count of a circle inside a membership table (the
`db.query(CircleMembership).filter(...).count()` of main.py). -/
def countIn (l : List MembershipRow) (cid : Nat) : Nat :=
  (l.filter (fun m => decide (m.circleId = cid))).length

/-- main.py `member_count` query for a state. -/
def member_count (s : SocialState) (cid : Nat) : Nat :=
  countIn s.memberships cid

/-- The 4xx rejections of the circle endpoints in main.py. -/
inductive CircleError
  | inviteCodeRequired
  | circleNotFound
  | alreadyMember
  | circleFull
  | nameTooShort
  | notMember
deriving DecidableEq

/-- main.py `join_circle` (POST /circles/join): look the circle up by invite
code (assumed already upper-cased/stripped), reject a missing code, an
unknown code, a duplicate membership, or a full circle (10 members), and
otherwise insert exactly one membership row.  Returns the joined circle's
id alongside the new state. -/
def join_circle (s : SocialState) (userId : Nat) (inviteCode : String) :
    Except CircleError (SocialState × Nat) :=
  if inviteCode = "" then Except.error CircleError.inviteCodeRequired
  else
    match s.circles.find? (fun c => decide (c.inviteCode = inviteCode)) with
    | none => Except.error CircleError.circleNotFound
    | some c =>
      if s.memberships.any (fun m => decide (m.circleId = c.id ∧ m.userId = userId)) then
        Except.error CircleError.alreadyMember
      else if 10 ≤ countIn s.memberships c.id then
        Except.error CircleError.circleFull
      else
        Except.ok ({ s with memberships := s.memberships ++ [{ circleId := c.id, userId := userId }] }, c.id)

/-- main.py `create_circle` (POST /circles): reject names shorter than 2
characters, create the circle with a fresh id and the given (randomly
generated) invite code, and add the creator as first member. -/
def create_circle (s : SocialState) (userId : Nat) (name inviteCode : String) :
    Except CircleError (SocialState × Nat) :=
  if name.length < 2 then Except.error CircleError.nameTooShort
  else
    let cid := s.nextCircleId
    Except.ok
      ({ circles := s.circles ++ [{ id := cid, name := name, inviteCode := inviteCode, createdBy := userId }]
         memberships := s.memberships ++ [{ circleId := cid, userId := userId }]
         nextCircleId := cid + 1 }, cid)

/-- main.py `leave_circle` (DELETE /circles/id/leave): delete the caller's
membership row if present, 404 otherwise. -/
def leave_circle (s : SocialState) (userId : Nat) (circleId : Nat) :
    Except CircleError SocialState :=
  if s.memberships.any (fun m => decide (m.circleId = circleId ∧ m.userId = userId)) then
    Except.ok { s with memberships := s.memberships.eraseP (fun m => decide (m.circleId = circleId ∧ m.userId = userId)) }
  else
    Except.error CircleError.notMember

/-- The membership invariant of the claim: every circle has at most 10
members, and no (circle, user) pair appears twice. -/
def MembershipInv (s : SocialState) : Prop :=
  (∀ m ∈ s.memberships, countIn s.memberships m.circleId ≤ 10)
  ∧ (s.memberships.map (fun m => (m.circleId, m.userId))).Nodup

/-- Well-formedness of the autoincrement counter: every existing circle id
(and every membership's circle reference) is below the next id to be
allocated.  This holds in every state the endpoints can reach. -/
def IdsFresh (s : SocialState) : Prop :=
  (∀ m ∈ s.memberships, m.circleId < s.nextCircleId)
  ∧ (∀ c ∈ s.circles, c.id < s.nextCircleId)

/-- A row of the `weights` table (models.py `Weight`; `user_id` is nullable). -/
structure WeightRow where
  id : Nat
  weightLbs : ℚ
  userId : Option Nat
deriving DecidableEq

/-- weight.py `delete_weight_entry`: find the first entry with the given id
— with no condition on its owner — delete it, and report success. -/
def delete_weight_entry (db : List WeightRow) (weightId : Nat) :
    Bool × List WeightRow :=
  match db.find? (fun w => decide (w.id = weightId)) with
  | some _ => (true, db.eraseP (fun w => decide (w.id = weightId)))
  | none => (false, db)

/-- The 404 rejection of main.py `delete_weight`. -/
inductive WeightApiError
  | weightNotFound
deriving DecidableEq

/-- main.py `delete_weight` (DELETE /weights/id).  The handler declares no
identity dependency, so the request's bearer identity (`caller`, as every
HTTP request may carry one) is never consulted: deletion is by id only. -/
def delete_weight_endpoint (_caller : Option Nat) (weightId : Nat)
    (db : List WeightRow) : Except WeightApiError (List WeightRow) :=
  let res := delete_weight_entry db weightId
  if res.1 then Except.ok res.2 else Except.error WeightApiError.weightNotFound

/-- The outcome of the external `jose.jwt.decode` call on a bearer token: a
payload with its optional `sub` claim, or a `JWTError` — which is what the
library raises for expired or tampered tokens. -/
inductive JwtOutcome
  | payload (sub : Option String)
  | jwtError
deriving DecidableEq

/-- auth.py `decode_token`: wrap `jwt.decode` and turn a `JWTError` into
`None` instead of letting it propagate.  `jwtDecode` models the external
verification primitive. -/
def decode_token (jwtDecode : String → JwtOutcome) (token : String) :
    Option (Option String) :=
  match jwtDecode token with
  | JwtOutcome.payload sub => some sub
  | JwtOutcome.jwtError => none

/-- A row of the `users` table, restricted to what identity resolution
reads. -/
structure UserRow where
  id : Nat
  email : String
deriving DecidableEq

/-- auth.py `get_user_by_email`. -/
def get_user_by_email (db : List UserRow) (email : String) : Option UserRow :=
  db.find? (fun u => decide (u.email = email))

/-- The 401 raised by auth.py `require_auth`. -/
inductive AuthError
  | unauthorized401
deriving DecidableEq

/-- auth.py `get_current_user`: optional identity resolution.  Returns no
identity — never an error — when the token is missing or empty, fails to
decode, lacks a (non-empty) `sub` claim, or names an unknown email.
(`if not token` and `if not email` are Python truthiness, so the empty
string also yields no identity.) -/
def get_current_user (jwtDecode : String → JwtOutcome) (token : Option String)
    (db : List UserRow) : Except AuthError (Option UserRow) :=
  match token with
  | none => Except.ok none
  | some t =>
    if t = "" then Except.ok none
    else
      match decode_token jwtDecode t with
      | none => Except.ok none
      | some sub =>
        match sub with
        | none => Except.ok none
        | some email =>
          if email = "" then Except.ok none
          else Except.ok (get_user_by_email db email)

/-- auth.py `require_auth`: raise 401 exactly when optional resolution
produced no identity, otherwise return the resolved user. -/
def require_auth (jwtDecode : String → JwtOutcome) (token : Option String)
    (db : List UserRow) : Except AuthError UserRow :=
  match get_current_user jwtDecode token db with
  | Except.ok none => Except.error AuthError.unauthorized401
  | Except.ok (some u) => Except.ok u
  | Except.error e => Except.error e

/-!
Concrete inputs used by the counterexamples, bug evaluations and witnesses.
-/

/-- A 10k run of user 1 taking 3000 s (in scope: day 10). -/
def c1RunA : Run :=
  { id := 1, runType := "10k", durationSeconds := 3000, distanceKm := 10,
    completedDay := 10, userId := some 1, category := "outdoor" }

/-- A 10k run of user 2 taking 2000 s (in scope: day 10). -/
def c1RunB : Run :=
  { id := 2, runType := "10k", durationSeconds := 2000, distanceKm := 10,
    completedDay := 10, userId := some 2, category := "outdoor" }

/-- A two-user runs table: user 1's best 10k is 3000 s, user 2's is 2000 s. -/
def c1Db : List Run := [c1RunA, c1RunB]

/-- A new 10k run by user 1 taking 1900 s: faster than every prior 10k of
either user. -/
def c1New : Run :=
  { id := 3, runType := "10k", durationSeconds := 1900, distanceKm := 10,
    completedDay := 11, userId := some 1, category := "outdoor" }

/-- A week's worth of three runs for user 1 starting on the Sunday `d0`:
one 10k and two 5ks on consecutive days. -/
def validWeekRuns (i d0 : Nat) : List Run :=
  [{ id := i, runType := "10k", durationSeconds := 3600, distanceKm := 10,
     completedDay := d0, userId := some 1, category := "outdoor" },
   { id := i + 1, runType := "5k", durationSeconds := 1800, distanceKm := 5,
     completedDay := d0 + 1, userId := some 1, category := "outdoor" },
   { id := i + 2, runType := "5k", durationSeconds := 1800, distanceKm := 5,
     completedDay := d0 + 2, userId := some 1, category := "outdoor" }]

/-- The C3 failing input: valid weeks starting on day 56 (the week of
`now = 60`) and on day 42, and no runs at all in the week starting day 49. -/
def c3Runs : List Run := validWeekRuns 1 56 ++ validWeekRuns 4 42

/-- A week of exactly two runs, one of them 10 km. -/
def c2TwoRunWeek : List Run :=
  [{ id := 1, runType := "10k", durationSeconds := 3600, distanceKm := 10,
     completedDay := 10, userId := some 1, category := "outdoor" },
   { id := 2, runType := "5k", durationSeconds := 1800, distanceKm := 5,
     completedDay := 11, userId := some 1, category := "outdoor" }]

/-- A creation request for the label 20k (which the claim's enumeration
includes). -/
def c4Request20k : RunCreate :=
  { runType := "20k", durationSeconds := 6000, notes := none,
    completedAt := none, category := none }

/-- A creation request for the label 5k. -/
def c4Request5k : RunCreate :=
  { runType := "5k", durationSeconds := 1500, notes := none,
    completedAt := none, category := none }

/-- A single in-scope run of 5 km used by the C5 witness. -/
def c5Runs : List Run :=
  [{ id := 1, runType := "5k", durationSeconds := 1500, distanceKm := 5,
     completedDay := 10, userId := some 1, category := "outdoor" }]

/-- A month of five runs totalling 90 km (21+21+18+15+15). -/
def c6MonthRuns : List Run :=
  [{ id := 1, runType := "21k", durationSeconds := 7000, distanceKm := 21,
     completedDay := 10, userId := some 1, category := "outdoor" },
   { id := 2, runType := "21k", durationSeconds := 7100, distanceKm := 21,
     completedDay := 12, userId := some 1, category := "outdoor" },
   { id := 3, runType := "18k", durationSeconds := 6000, distanceKm := 18,
     completedDay := 14, userId := some 1, category := "outdoor" },
   { id := 4, runType := "15k", durationSeconds := 5000, distanceKm := 15,
     completedDay := 16, userId := some 1, category := "outdoor" },
   { id := 5, runType := "15k", durationSeconds := 5100, distanceKm := 15,
     completedDay := 18, userId := some 1, category := "outdoor" }]

/-- The invite code of the C7 witness circle. -/
def c7Code : String := "RUNCODE1"

/-- A one-circle state: circle 0 with member user 1, next id 1. -/
def c7State : SocialState :=
  { circles := [{ id := 0, name := "AB", inviteCode := c7Code, createdBy := 1 }]
    memberships := [{ circleId := 0, userId := 1 }]
    nextCircleId := 1 }

/-- A weight entry owned by user 1. -/
def c8Entry : WeightRow :=
  { id := 1, weightLbs := 200, userId := some 1 }

/-- A decode primitive under which every token is expired/tampered. -/
def c9BadDecode : String → JwtOutcome :=
  fun _ => JwtOutcome.jwtError

/-- A bearer token (the decode primitive above rejects it). -/
def c9Token : String := "sometoken"

/-- A circle name for the C7 witness. -/
def c7Name : String := "XY"

/-- A fresh invite code for the C7 witness. -/
def c7Icode : String := "NEWCODE9"

/-- A 5k creation request used by the C10 drift example. -/
def c10Request : RunCreate :=
  { runType := "5k", durationSeconds := 1500, notes := none,
    completedAt := none, category := none }

/-!
Theorems.  Each claim Cn of the specification gets exactly one theorem
(plus, where applicable, a counterexample and a witness); the remaining
lemmas are shared helpers.
-/

/-- C1 counterexample: the claim's improvement clause fails on
`check_new_pr`, which is not user-scoped.  User 1's prior 10k minimum is
3000 s, so by the claim a new 1900 s 10k by user 1 should report
`improvement_seconds = 1100`; the code computes the minimum over ALL users'
prior 10k runs (2000 s, by user 2) and reports 100. -/
theorem C1_counterexample :
    check_new_pr c1Db c1New = some (PRInfo.newPR 100)
    ∧ c1New.userId = some 1
    ∧ minDuration (spec_prior_for_user c1Db c1New 1) = 3000
    ∧ minDuration (spec_prior_for_user c1Db c1New 1) - c1New.durationSeconds = 1100 := by
  exact ⟨by decide, rfl, by decide, by decide⟩

/-- C1 (amended): the PR flag reported on run creation
(`check_personal_best`) is user-scoped for runs that have a user: it is
true iff the user has no prior in-scope same-type run or the new duration
is strictly below their minimum (so a tie is not a PR).  `check_new_pr`,
by contrast, computes first-ness, the PR decision, and
`improvement_seconds` over the prior in-scope same-type runs of ALL users:
it reports first-run when there is none, a PR with improvement equal to
that global minimum minus the new duration when strictly faster, and
nothing otherwise. -/
theorem C1_theorem :
    (∀ (db : List Run) (newRun : Run) (u : Nat), newRun.userId = some u →
      ((check_personal_best db newRun).1 = true ↔
        (spec_prior_for_user db newRun u = [] ∨
         newRun.durationSeconds < minDuration (spec_prior_for_user db newRun u))))
    ∧ (∀ (db : List Run) (run : Run),
        (prior_same_type_all db run = [] → check_new_pr db run = some PRInfo.firstRun)
        ∧ (prior_same_type_all db run ≠ [] →
            check_new_pr db run =
              if run.durationSeconds < minDuration (prior_same_type_all db run) then
                some (PRInfo.newPR (minDuration (prior_same_type_all db run) - run.durationSeconds))
              else none)) := by
  constructor
  · intro db newRun u hu
    have hps : prior_same_type db newRun = spec_prior_for_user db newRun u := by
      unfold prior_same_type spec_prior_for_user
      rw [hu]
    unfold check_personal_best
    rw [hps]
    cases hls : spec_prior_for_user db newRun u with
    | nil => simp
    | cons r rs =>
      by_cases hlt : newRun.durationSeconds < minDuration (r :: rs)
      · simp [hlt]
      · simp [hlt]
  · intro db run
    constructor
    · intro h
      unfold check_new_pr
      rw [h]
    · intro h
      unfold check_new_pr
      cases hls : prior_same_type_all db run with
      | nil => exact absurd hls h
      | cons r rs => simp

/-- C1 witness: the amended theorem applied at the concrete two-user
database. -/
theorem C1_witness :
    c1New.userId = some 1
    ∧ ((check_personal_best c1Db c1New).1 = true ↔
        (spec_prior_for_user c1Db c1New 1 = [] ∨
         c1New.durationSeconds < minDuration (spec_prior_for_user c1Db c1New 1)))
    ∧ prior_same_type_all c1Db c1New ≠ []
    ∧ check_new_pr c1Db c1New =
        (if c1New.durationSeconds < minDuration (prior_same_type_all c1Db c1New) then
          some (PRInfo.newPR (minDuration (prior_same_type_all c1Db c1New) - c1New.durationSeconds))
        else none) :=
  ⟨rfl, C1_theorem.1 c1Db c1New 1 rfl, by decide,
   (C1_theorem.2 c1Db c1New).2 (by decide)⟩

/-- C2: a week's run list qualifies for the streak iff it has at least 3
runs in total, at least 1 run of 10 km or more, and at least 2 runs under
10 km; in particular a week with exactly 2 runs is never valid. -/
theorem C2_theorem : ∀ runs : List Run,
    (is_valid_streak_week runs = true ↔
      (3 ≤ runs.length ∧
       1 ≤ (runs.filter (fun r => decide (10 ≤ r.distanceKm))).length ∧
       2 ≤ (runs.filter (fun r => decide (r.distanceKm < 10))).length))
    ∧ (runs.length = 2 → is_valid_streak_week runs = false) := by
  intro runs
  refine ⟨?_, ?_⟩
  · unfold is_valid_streak_week
    by_cases h : runs.length < 3
    · simp only [if_pos h, Bool.false_eq_true, false_iff]
      omega
    · simp only [if_neg h, Bool.and_eq_true, decide_eq_true_eq]
      omega
  · intro h2
    unfold is_valid_streak_week
    rw [if_pos (by omega : runs.length < 3)]

/-- C2 witness: a two-run week, one run of 10 km, is not valid. -/
theorem C2_witness :
    c2TwoRunWeek.length = 2 ∧ is_valid_streak_week c2TwoRunWeek = false :=
  ⟨rfl, (C2_theorem c2TwoRunWeek).2 rfl⟩

/-- C3 (bug evaluation): with valid weeks starting on day 56 (the current
week, `now = 60`) and on day 42, and NO runs at all in the intervening
week starting on day 49, `calculate_streaks` returns a current streak of 2:
its `days_diff == 7` branch counts a valid week that sits beyond an
entirely missing week.  The claim (and the code's own comments) say the
walk stops at the first missing week, which would give 1. -/
theorem C3_theorem :
    calculate_streaks 60 c3Runs = (2, 1)
    ∧ (c3Runs.filter (fun r => decide (weekStart r.completedDay = 49))).length = 0
    ∧ is_valid_streak_week (c3Runs.filter (fun r => decide (weekStart r.completedDay = 56))) = true
    ∧ is_valid_streak_week (c3Runs.filter (fun r => decide (weekStart r.completedDay = 42))) = true := by
  exact ⟨by decide, by decide, by decide, by decide⟩

/-- C4 counterexample: the label 20k is in the claim's enumeration, but
`RUN_DISTANCES` has no entry for it, so the create-run endpoint rejects it
with the validation error instead of succeeding. -/
theorem C4_counterexample :
    create_run_endpoint c4Request20k none 10 initialState
      = (initialState, Except.error RunApiError.invalidRunType)
    ∧ RUN_DISTANCES.lookup c4Request20k.runType = none :=
  ⟨rfl, rfl⟩

/-- C4 (amended): for every label in the table 3k, 5k, 10k, 15k, 18k, 21k
(20k excluded), creating a run succeeds and stores `distance_km` equal to
the table constant, appending exactly the new run; for every label outside
the table, creation is rejected with a validation error and the state is
unchanged. -/
theorem C4_theorem :
    (∀ (rc : RunCreate) (u : Option Nat) (now : Nat) (s : AppState) (d : ℚ),
      RUN_DISTANCES.lookup rc.runType = some d →
      ∃ s2 run pr,
        create_run_endpoint rc u now s = (s2, Except.ok (run, pr))
        ∧ run.distanceKm = d
        ∧ s2.runs = s.runs ++ [run])
    ∧ (∀ (rc : RunCreate) (u : Option Nat) (now : Nat) (s : AppState),
        RUN_DISTANCES.lookup rc.runType = none →
        create_run_endpoint rc u now s = (s, Except.error RunApiError.invalidRunType)) := by
  constructor
  · intro rc u now s d h
    refine ⟨(crud_create_run rc u now s).1, (crud_create_run rc u now s).2,
      (check_personal_best (crud_create_run rc u now s).1.runs (crud_create_run rc u now s).2).1,
      ?_, ?_, ?_⟩
    · unfold create_run_endpoint
      rw [h]
      rfl
    · simp [crud_create_run, h]
    · simp [crud_create_run]
  · intro rc u now s h
    unfold create_run_endpoint
    rw [h]
    rfl

/-- C4 witness: the amended theorem applied to a 5k creation on the empty
state. -/
theorem C4_witness :
    RUN_DISTANCES.lookup c4Request5k.runType = some 5
    ∧ ∃ s2 run pr,
        create_run_endpoint c4Request5k none 10 initialState = (s2, Except.ok (run, pr))
        ∧ run.distanceKm = 5
        ∧ s2.runs = initialState.runs ++ [run] :=
  ⟨rfl, C4_theorem.1 c4Request5k none 10 initialState 5 rfl⟩

/-- C5: the yearly goal percent equals `min 100 (100 * sum / target)` for a
positive target (in particular it is clamped to 100 whenever the in-scope
sum exceeds the target), it is 0 when the target is 0, and `on_track` holds
iff the cumulative km is at least `target * (dayOfYear / 365)`. -/
theorem C5_theorem : ∀ (runs : List Run) (target : ℚ) (d : Nat),
    (0 < target →
      (yearly_goal_progress runs target d).1
        = min 100 (100 * sumKm (runs.filter (fun r => decide (minDay ≤ r.completedDay))) / target))
    ∧ (0 < target →
        target < sumKm (runs.filter (fun r => decide (minDay ≤ r.completedDay))) →
        (yearly_goal_progress runs target d).1 = 100)
    ∧ (target = 0 → (yearly_goal_progress runs target d).1 = 0)
    ∧ ((yearly_goal_progress runs target d).2 = true ↔
        target * ((d : ℚ) / 365) ≤ sumKm (runs.filter (fun r => decide (minDay ≤ r.completedDay)))) := by
  intro runs target d
  refine ⟨?_, ?_, ?_, ?_⟩
  · intro ht
    simp only [yearly_goal_progress, if_pos ht]
    rw [div_mul_eq_mul_div, mul_comm]
  · intro ht hlt
    simp only [yearly_goal_progress, if_pos ht]
    have h1 : (1 : ℚ) ≤ sumKm (runs.filter (fun r => decide (minDay ≤ r.completedDay))) / target :=
      (one_le_div ht).2 hlt.le
    have h2 : (100 : ℚ) ≤ sumKm (runs.filter (fun r => decide (minDay ≤ r.completedDay))) / target * 100 := by
      nlinarith
    exact min_eq_left h2
  · intro h0
    simp [yearly_goal_progress, h0]
  · simp only [yearly_goal_progress, decide_eq_true_eq]

/-- C5 witness: the theorem applied to a 5 km year against a 4 km target on
day 73. -/
theorem C5_witness :
    0 < (4 : ℚ)
    ∧ (0 < (4 : ℚ) →
        (yearly_goal_progress c5Runs 4 73).1
          = min 100 (100 * sumKm (c5Runs.filter (fun r => decide (minDay ≤ r.completedDay))) / 4))
    ∧ ((yearly_goal_progress c5Runs 4 73).2 = true ↔
        4 * ((73 : ℚ) / 365) ≤ sumKm (c5Runs.filter (fun r => decide (minDay ≤ r.completedDay)))) :=
  ⟨by norm_num, (C5_theorem c5Runs 4 73).1, (C5_theorem c5Runs 4 73).2.2.2⟩

/-- C6 (bug evaluation): for a user with no `UserGoals` row and a month of
90 km, the month-in-review goal block uses a default monthly goal of 80 km
— not the global `MONTHLY_GOAL_KM = 100` — and therefore reports the goal
as met (and the percent clamped to 100); against the documented 100 km
default the goal would not be met. -/
theorem C6_theorem :
    get_month_in_review_goals c6MonthRuns [] (some 1) = (80, 100, true)
    ∧ sumKm c6MonthRuns = 90
    ∧ MONTHLY_GOAL_KM = 100
    ∧ ¬ (MONTHLY_GOAL_KM ≤ sumKm c6MonthRuns) := by
  refine ⟨?_, ?_, rfl, ?_⟩
  · norm_num [get_month_in_review_goals, sumKm, c6MonthRuns]
  · norm_num [sumKm, c6MonthRuns]
  · norm_num [sumKm, c6MonthRuns, MONTHLY_GOAL_KM]

/-- Membership counts distribute over list append. -/
theorem countIn_append (l1 l2 : List MembershipRow) (cid : Nat) :
    countIn (l1 ++ l2) cid = countIn l1 cid + countIn l2 cid := by
  simp [countIn, List.filter_append]

/-- Membership count of a singleton list. -/
theorem countIn_singleton (m : MembershipRow) (cid : Nat) :
    countIn [m] cid = if m.circleId = cid then 1 else 0 := by
  by_cases h : m.circleId = cid <;> simp [countIn, h]

/-- A circle no membership refers to has count 0. -/
theorem countIn_eq_zero_of_forall (l : List MembershipRow) (cid : Nat)
    (h : ∀ m ∈ l, m.circleId ≠ cid) : countIn l cid = 0 := by
  simp only [countIn, List.length_eq_zero]
  rw [List.filter_eq_nil_iff]
  intro m hm
  simpa using h m hm

/-- Inversion of a successful `join_circle`: the circle was found by its
invite code, the caller was not yet a member, the circle had fewer than 10
members, and the result state appends exactly one membership row. -/
theorem join_circle_ok {s : SocialState} {u : Nat} {code : String}
    {s2 : SocialState} {r : Nat}
    (h : join_circle s u code = Except.ok (s2, r)) :
    ∃ c, s.circles.find? (fun x => decide (x.inviteCode = code)) = some c
      ∧ (∀ m ∈ s.memberships, ¬(m.circleId = c.id ∧ m.userId = u))
      ∧ countIn s.memberships c.id < 10
      ∧ s2 = { s with memberships := s.memberships ++ [{ circleId := c.id, userId := u }] }
      ∧ r = c.id := by
  unfold join_circle at h
  split at h
  · exact Except.noConfusion h
  · split at h
    · exact Except.noConfusion h
    · rename_i c hf
      split at h
      · exact Except.noConfusion h
      · split at h
        · exact Except.noConfusion h
        · rename_i hd hc
          rw [Except.ok.injEq, Prod.mk.injEq] at h
          obtain ⟨h1, h2⟩ := h
          refine ⟨c, hf, ?_, by omega, h1.symm, h2.symm⟩
          intro m hm hmc
          exact hd (List.any_eq_true.2 ⟨m, hm, by simpa using hmc⟩)

/-- A (circle, user) pair absent from a membership list is absent from its
pair projection. -/
theorem pair_not_mem_map {l : List MembershipRow} {cid u : Nat}
    (h : ∀ m ∈ l, ¬(m.circleId = cid ∧ m.userId = u)) :
    (cid, u) ∉ l.map (fun m => (m.circleId, m.userId)) := by
  intro hmem
  obtain ⟨m, hm, hpair⟩ := List.mem_map.1 hmem
  rw [Prod.mk.injEq] at hpair
  exact h m hm ⟨hpair.1, hpair.2⟩

/-- Appending a membership whose pair is fresh preserves pair-nodup. -/
theorem nodup_append_pair {l : List MembershipRow} {m0 : MembershipRow}
    (hnd : (l.map (fun m => (m.circleId, m.userId))).Nodup)
    (hnm : (m0.circleId, m0.userId) ∉ l.map (fun m => (m.circleId, m.userId))) :
    ((l ++ [m0]).map (fun m => (m.circleId, m.userId))).Nodup := by
  rw [List.map_append]
  refine List.Nodup.append hnd (List.nodup_singleton _) ?_
  intro x hx hx1
  simp only [List.map_cons, List.map_nil, List.mem_singleton] at hx1
  subst hx1
  exact hnm hx

/-- A successful join preserves the membership invariant and id freshness. -/
theorem join_circle_preserves {s : SocialState} {u : Nat} {code : String}
    {s2 : SocialState} {r : Nat}
    (hInv : MembershipInv s) (hF : IdsFresh s)
    (h : join_circle s u code = Except.ok (s2, r)) :
    MembershipInv s2 ∧ IdsFresh s2 := by
  obtain ⟨c, hf, hdup, hcnt, hs2, hr⟩ := join_circle_ok h
  obtain ⟨hcap, hnd⟩ := hInv
  obtain ⟨hmb, hcb⟩ := hF
  have hcmem : c ∈ s.circles := List.mem_of_find?_eq_some hf
  subst hs2
  refine ⟨⟨?_, ?_⟩, ?_, ?_⟩
  · intro m hm
    simp only at hm ⊢
    rw [countIn_append, countIn_singleton]
    simp only [List.mem_append, List.mem_singleton] at hm
    cases hm with
    | inl hm =>
      have h10 := hcap m hm
      by_cases hx : c.id = m.circleId
      · rw [if_pos hx]
        rw [hx] at hcnt
        omega
      · rw [if_neg hx]
        omega
    | inr hm =>
      subst hm
      simp only [if_true]
      omega
  · exact nodup_append_pair hnd (pair_not_mem_map hdup)
  · intro m hm
    simp only [List.mem_append, List.mem_singleton] at hm
    cases hm with
    | inl hm => exact hmb m hm
    | inr hm => subst hm; exact hcb c hcmem
  · intro cc hcc
    exact hcb cc hcc

/-- A successful circle creation preserves the membership invariant and id
freshness: the fresh circle has no pre-existing members. -/
theorem create_circle_preserves {s : SocialState} {u : Nat} {nm icode : String}
    {s2 : SocialState} {r : Nat}
    (hInv : MembershipInv s) (hF : IdsFresh s)
    (h : create_circle s u nm icode = Except.ok (s2, r)) :
    MembershipInv s2 ∧ IdsFresh s2 := by
  obtain ⟨hcap, hnd⟩ := hInv
  obtain ⟨hmb, hcb⟩ := hF
  unfold create_circle at h
  split at h
  · exact Except.noConfusion h
  · rw [Except.ok.injEq, Prod.mk.injEq] at h
    obtain ⟨h1, h2⟩ := h
    subst h1
    have hne : ∀ m ∈ s.memberships, m.circleId ≠ s.nextCircleId := by
      intro m hm
      have := hmb m hm
      omega
    have hzero : countIn s.memberships s.nextCircleId = 0 :=
      countIn_eq_zero_of_forall _ _ hne
    refine ⟨⟨?_, ?_⟩, ?_, ?_⟩
    · intro m hm
      simp only at hm ⊢
      rw [countIn_append, countIn_singleton]
      simp only [List.mem_append, List.mem_singleton] at hm
      cases hm with
      | inl hm =>
        have h10 := hcap m hm
        have hne1 := hne m hm
        rw [if_neg (fun hx => hne1 hx.symm)]
        omega
      | inr hm =>
        subst hm
        simp only [hzero, if_true]
        omega
    · refine nodup_append_pair hnd (pair_not_mem_map ?_)
      intro m hm hx
      exact hne m hm hx.1
    · intro m hm
      simp only [List.mem_append, List.mem_singleton] at hm
      cases hm with
      | inl hm =>
        have := hmb m hm
        simp only
        omega
      | inr hm =>
        subst hm
        simp only
        omega
    · intro cc hcc
      simp only [List.mem_append, List.mem_singleton] at hcc
      cases hcc with
      | inl hcc =>
        have := hcb cc hcc
        simp only
        omega
      | inr hcc =>
        subst hcc
        simp only
        omega

/-- Leaving a circle (deleting a membership row) preserves the membership
invariant and id freshness. -/
theorem leave_circle_preserves {s : SocialState} {u : Nat} {cid : Nat}
    {s2 : SocialState}
    (hInv : MembershipInv s) (hF : IdsFresh s)
    (h : leave_circle s u cid = Except.ok s2) :
    MembershipInv s2 ∧ IdsFresh s2 := by
  obtain ⟨hcap, hnd⟩ := hInv
  obtain ⟨hmb, hcb⟩ := hF
  unfold leave_circle at h
  split at h
  · rw [Except.ok.injEq] at h
    subst h
    have hsub : List.Sublist
        (s.memberships.eraseP (fun m => decide (m.circleId = cid ∧ m.userId = u)))
        s.memberships := List.eraseP_sublist _
    refine ⟨⟨?_, ?_⟩, ?_, ?_⟩
    · intro m hm
      have hle : countIn (s.memberships.eraseP (fun m => decide (m.circleId = cid ∧ m.userId = u))) m.circleId
          ≤ countIn s.memberships m.circleId := by
        simpa [countIn] using (hsub.filter _).length_le
      exact le_trans hle (hcap m (hsub.subset hm))
    · exact hnd.sublist (hsub.map _)
    · intro m hm
      exact hmb m (hsub.subset hm)
    · intro cc hcc
      exact hcb cc hcc
  · exact Except.noConfusion h

/-- C7: the circle operations preserve the membership invariant (at most 10
members per circle, no duplicate (circle, user) membership); a join against
a circle at (or beyond) 10 members is rejected, a duplicate join by an
existing member is rejected, and a successful join inserts exactly one
membership row, increasing the joined circle's member count by exactly 1. -/
theorem C7_theorem : ∀ (s : SocialState) (u : Nat) (code nm icode : String) (cid : Nat),
    MembershipInv s → IdsFresh s →
    ((∀ s2 r, join_circle s u code = Except.ok (s2, r) → MembershipInv s2 ∧ IdsFresh s2)
    ∧ (∀ s2 r, create_circle s u nm icode = Except.ok (s2, r) → MembershipInv s2 ∧ IdsFresh s2)
    ∧ (∀ s2, leave_circle s u cid = Except.ok s2 → MembershipInv s2 ∧ IdsFresh s2)
    ∧ (∀ c, s.circles.find? (fun x => decide (x.inviteCode = code)) = some c →
        10 ≤ member_count s c.id → ∃ e, join_circle s u code = Except.error e)
    ∧ (∀ c, s.circles.find? (fun x => decide (x.inviteCode = code)) = some c →
        ({ circleId := c.id, userId := u } : MembershipRow) ∈ s.memberships →
        ∃ e, join_circle s u code = Except.error e)
    ∧ (∀ s2 r, join_circle s u code = Except.ok (s2, r) →
        s2.memberships.length = s.memberships.length + 1
        ∧ member_count s2 r = member_count s r + 1)) := by
  intro s u code nm icode cid hInv hF
  refine ⟨?_, ?_, ?_, ?_, ?_, ?_⟩
  · intro s2 r h
    exact join_circle_preserves hInv hF h
  · intro s2 r h
    exact create_circle_preserves hInv hF h
  · intro s2 h
    exact leave_circle_preserves hInv hF h
  · intro c hfind hfull
    cases hj : join_circle s u code with
    | error e => exact ⟨e, rfl⟩
    | ok p =>
      exfalso
      obtain ⟨s2x, rx⟩ := p
      obtain ⟨c2, hf2, _, hcnt, _, _⟩ := join_circle_ok hj
      rw [hfind] at hf2
      rw [Option.some.injEq] at hf2
      subst hf2
      exact absurd hfull (by simpa [member_count] using hcnt)
  · intro c hfind hmem
    cases hj : join_circle s u code with
    | error e => exact ⟨e, rfl⟩
    | ok p =>
      exfalso
      obtain ⟨s2x, rx⟩ := p
      obtain ⟨c2, hf2, hdup, _, _, _⟩ := join_circle_ok hj
      rw [hfind] at hf2
      rw [Option.some.injEq] at hf2
      subst hf2
      exact hdup _ hmem ⟨rfl, rfl⟩
  · intro s2 r h
    obtain ⟨c, _, _, _, hs2, hr⟩ := join_circle_ok h
    subst hs2
    subst hr
    constructor
    · simp
    · simp only [member_count]
      rw [countIn_append, countIn_singleton]
      simp

/-- C7 witness: the theorem applied to a one-circle state (member: user 1)
with user 2 joining via the invite code. -/
theorem C7_witness :
    MembershipInv c7State ∧ IdsFresh c7State
    ∧ ((∀ s2 r, join_circle c7State 2 c7Code = Except.ok (s2, r) → MembershipInv s2 ∧ IdsFresh s2)
    ∧ (∀ s2 r, create_circle c7State 2 c7Name c7Icode = Except.ok (s2, r) → MembershipInv s2 ∧ IdsFresh s2)
    ∧ (∀ s2, leave_circle c7State 2 0 = Except.ok s2 → MembershipInv s2 ∧ IdsFresh s2)
    ∧ (∀ c, c7State.circles.find? (fun x => decide (x.inviteCode = c7Code)) = some c →
        10 ≤ member_count c7State c.id → ∃ e, join_circle c7State 2 c7Code = Except.error e)
    ∧ (∀ c, c7State.circles.find? (fun x => decide (x.inviteCode = c7Code)) = some c →
        ({ circleId := c.id, userId := 2 } : MembershipRow) ∈ c7State.memberships →
        ∃ e, join_circle c7State 2 c7Code = Except.error e)
    ∧ (∀ s2 r, join_circle c7State 2 c7Code = Except.ok (s2, r) →
        s2.memberships.length = c7State.memberships.length + 1
        ∧ member_count s2 r = member_count c7State r + 1)) :=
  ⟨by constructor <;> decide, by constructor <;> decide,
   C7_theorem c7State 2 c7Code c7Name c7Icode 0
     (by constructor <;> decide) (by constructor <;> decide)⟩

/-- C8 counterexample: the weight entry with id 1 is owned by user 1, yet a
request by user 2 deletes it — deletion is not scoped to the caller. -/
theorem C8_counterexample :
    c8Entry.userId = some 1
    ∧ delete_weight_endpoint (some 2) c8Entry.id [c8Entry] = Except.ok [] :=
  ⟨rfl, rfl⟩

/-- C8 (amended): weight deletion ignores the caller entirely — the
endpoint declares no identity dependency, so any two callers get the same
result — and it deletes the first entry with the requested id whenever one
exists, whoever owns it, answering 404 only when no entry has that id. -/
theorem C8_theorem :
    (∀ (caller1 caller2 : Option Nat) (wid : Nat) (db : List WeightRow),
      delete_weight_endpoint caller1 wid db = delete_weight_endpoint caller2 wid db)
    ∧ (∀ (caller : Option Nat) (wid : Nat) (db : List WeightRow),
        delete_weight_endpoint caller wid db =
          if db.any (fun w => decide (w.id = wid)) then
            Except.ok (db.eraseP (fun w => decide (w.id = wid)))
          else Except.error WeightApiError.weightNotFound) := by
  refine ⟨fun _ _ _ _ => rfl, ?_⟩
  intro caller wid db
  unfold delete_weight_endpoint delete_weight_entry
  cases hf : db.find? (fun w => decide (w.id = wid)) with
  | none =>
    have hfa : db.any (fun w => decide (w.id = wid)) = false := by
      rw [List.any_eq_false]
      rw [List.find?_eq_none] at hf
      intro w hw
      simpa using hf w hw
    rw [hfa]
    rfl
  | some w =>
    have hmem := List.mem_of_find?_eq_some hf
    have hp : decide (w.id = wid) = true := by simpa using List.find?_some hf
    rw [if_pos (List.any_eq_true.2 ⟨w, hmem, hp⟩)]
    rfl

/-- Optional identity resolution is total: it always returns an identity or
no identity, never an error. -/
theorem get_current_user_total :
    ∀ (jd : String → JwtOutcome) (tok : Option String) (db : List UserRow),
      ∃ r, get_current_user jd tok db = Except.ok r := by
  intro jd tok db
  cases tok with
  | none => exact ⟨none, rfl⟩
  | some t =>
    simp only [get_current_user]
    by_cases h : t = ""
    · rw [if_pos h]; exact ⟨none, rfl⟩
    · rw [if_neg h]
      cases hd : decode_token jd t with
      | none => exact ⟨none, rfl⟩
      | some sub =>
        cases sub with
        | none => exact ⟨none, rfl⟩
        | some email =>
          refine ⟨if email = "" then none else get_user_by_email db email, ?_⟩
          show (if email = "" then Except.ok none
                else Except.ok (get_user_by_email db email))
              = Except.ok (if email = "" then none else get_user_by_email db email)
          split <;> rfl

/-- C9: a missing token resolves to no identity, a token the verification
primitive rejects (expired or tampered, i.e. `JWTError`) resolves to no
identity rather than an error, optional resolution never errors at all, and
`require_auth` returns the user iff one was resolved and raises 401 iff no
identity was resolved. -/
theorem C9_theorem :
    (∀ (jd : String → JwtOutcome) (db : List UserRow),
      get_current_user jd none db = Except.ok none)
    ∧ (∀ (jd : String → JwtOutcome) (t : String) (db : List UserRow),
        jd t = JwtOutcome.jwtError → get_current_user jd (some t) db = Except.ok none)
    ∧ (∀ (jd : String → JwtOutcome) (tok : Option String) (db : List UserRow),
        ∃ r, get_current_user jd tok db = Except.ok r)
    ∧ (∀ (jd : String → JwtOutcome) (tok : Option String) (db : List UserRow) (u : UserRow),
        require_auth jd tok db = Except.ok u ↔ get_current_user jd tok db = Except.ok (some u))
    ∧ (∀ (jd : String → JwtOutcome) (tok : Option String) (db : List UserRow),
        require_auth jd tok db = Except.error AuthError.unauthorized401 ↔
          get_current_user jd tok db = Except.ok none) := by
  refine ⟨?_, ?_, get_current_user_total, ?_, ?_⟩
  · intro jd db
    rfl
  · intro jd t db h
    simp only [get_current_user]
    by_cases h0 : t = ""
    · rw [if_pos h0]
    · rw [if_neg h0]
      unfold decode_token
      rw [h]
  · intro jd tok db u
    obtain ⟨r, hr⟩ := get_current_user_total jd tok db
    unfold require_auth
    rw [hr]
    cases r with
    | none => simp
    | some v => simp
  · intro jd tok db
    obtain ⟨r, hr⟩ := get_current_user_total jd tok db
    unfold require_auth
    rw [hr]
    cases r with
    | none => simp
    | some v => simp

/-- C9 witness: the theorem applied to a decode primitive that rejects
every token. -/
theorem C9_witness :
    c9BadDecode c9Token = JwtOutcome.jwtError
    ∧ get_current_user c9BadDecode (some c9Token) [] = Except.ok none :=
  ⟨rfl, C9_theorem.2.1 c9BadDecode c9Token [] rfl⟩

/-- C10: every run creation — for any user or none — turns the single
stats row into the old (created-if-missing) row with `total_runs`
incremented by exactly 1 and `total_km` incremented by exactly the created
run's `distance_km`, leaving the other counters untouched; run deletion and
run update leave the stats row entirely unchanged; consequently the counter
drifts: creating a 5k run and deleting it leaves an empty runs table but a
stats row recording 1 run and 5 km. -/
theorem C10_theorem : ∀ (s : AppState) (rc : RunCreate) (u : Option Nat)
    (now rid : Nat) (ru : RunUpdate),
    ((crud_create_run rc u now s).1.stats
        = some { totalRuns := (get_or_create_stats s.stats).totalRuns + 1
                 totalKm := (get_or_create_stats s.stats).totalKm
                   + (RUN_DISTANCES.lookup rc.runType).getD 0
                 currentStreak := (get_or_create_stats s.stats).currentStreak
                 longestStreak := (get_or_create_stats s.stats).longestStreak }
    ∧ (crud_create_run rc u now s).2.distanceKm = (RUN_DISTANCES.lookup rc.runType).getD 0
    ∧ (crud_delete_run s rid).2.stats = s.stats
    ∧ (crud_update_run s rid ru).1.stats = s.stats)
    ∧ ((crud_delete_run (crud_create_run c10Request none 10 initialState).1 0).2.runs = []
       ∧ (crud_delete_run (crud_create_run c10Request none 10 initialState).1 0).2.stats
           = some { totalRuns := 1, totalKm := 5, currentStreak := 0, longestStreak := 0 }) := by
  intro s rc u now rid ru
  refine ⟨⟨rfl, rfl, ?_, ?_⟩, ?_, ?_⟩
  · unfold crud_delete_run
    cases s.runs.find? (fun r => decide (r.id = rid)) <;> rfl
  · unfold crud_update_run
    cases s.runs.find? (fun r => decide (r.id = rid)) <;> rfl
  · decide
  · norm_num [crud_delete_run, crud_create_run, initialState, c10Request,
      update_stats_after_run, get_or_create_stats, categoryOrDefault]
    rfl

end RunZen
